import Mathlib

/-!
Shallow embedding of the content-cache / sync / search core of the
Veritas 2026 devotional application, together with proofs of the
specification's claims about it.

Sources embedded:
  - the type declarations and date utilities (src/unnamed/part_000);
  - the application orchestration component: content cache, date
    selection and fetch orchestration, completion toggling, sync status
    handlers, content update and search filtering (src/unnamed/part_001);
  - the profile sync service, in particular the profile merge strategy
    (src/services/syncService.ts);
  - the payload validation of the content fetcher
    (src/services/geminiService.ts).

Modelling conventions: JavaScript objects used as string-keyed maps are
embedded as association lists preserving insertion order (updating an
existing key keeps its position, a new key is appended, matching JS
property order for non-index string keys); `Date.now()` is passed in as
an explicit `now : Nat` argument; `new Date(s).getTime()` used as a sort
key is abstracted as an explicit `getTime : String -> Nat` argument;
async functions are split at their await points into a synchronous
prefix and explicit resolution / rejection continuations.
-/

namespace Veritas

/-- Theme enumeration (src/unnamed/part_000): light or sepia or dark. -/
inductive Theme
  | light
  | sepia
  | dark
deriving DecidableEq, Repr

/-- LoadingState enum (src/unnamed/part_000). -/
inductive LoadingState
  | IDLE
  | LOADING
  | SUCCESS
  | ERROR
deriving DecidableEq, Repr

/-- SyncStatus union type (src/unnamed/part_000). -/
inductive SyncStatus
  | synced
  | syncing
  | error
  | offline
deriving DecidableEq, Repr

/-- DevotionalContent record (src/unnamed/part_000). The `date` field is
the human-readable date string the fetcher was called with. -/
structure DevotionalContent where
  date : String
  passageReference : String
  scriptureText : String
  reflection : String
  morningPrayer : String
  eveningPrayer : String
  quote : String
  quoteAuthor : String
  relatedVerseReference : String
  relatedVerseText : String
  customPassageText : Option String
  customRelatedVerseText : Option String
deriving DecidableEq, Repr

/-- Partial(DevotionalContent) as used by handleContentUpdate
(src/unnamed/part_001): each field is present (`some`) or absent
(`none`); a present field overrides the existing record's field under
object spread. -/
structure PartialContent where
  date : Option String
  passageReference : Option String
  scriptureText : Option String
  reflection : Option String
  morningPrayer : Option String
  eveningPrayer : Option String
  quote : Option String
  quoteAuthor : Option String
  relatedVerseReference : Option String
  relatedVerseText : Option String
  customPassageText : Option (Option String)
  customRelatedVerseText : Option (Option String)
deriving DecidableEq, Repr

/-- The all-absent partial update. -/
def emptyPartial : PartialContent :=
  ⟨none, none, none, none, none, none, none, none, none, none, none, none⟩

/-- `{ ...content, ...updatedFields }` of handleContentUpdate
(src/unnamed/part_001 lines 157): every field named in the partial
replaces the record's field, every absent field keeps the prior value. -/
def mergeContent (c : DevotionalContent) (p : PartialContent) : DevotionalContent where
  date := p.date.getD c.date
  passageReference := p.passageReference.getD c.passageReference
  scriptureText := p.scriptureText.getD c.scriptureText
  reflection := p.reflection.getD c.reflection
  morningPrayer := p.morningPrayer.getD c.morningPrayer
  eveningPrayer := p.eveningPrayer.getD c.eveningPrayer
  quote := p.quote.getD c.quote
  quoteAuthor := p.quoteAuthor.getD c.quoteAuthor
  relatedVerseReference := p.relatedVerseReference.getD c.relatedVerseReference
  relatedVerseText := p.relatedVerseText.getD c.relatedVerseText
  customPassageText := p.customPassageText.getD c.customPassageText
  customRelatedVerseText := p.customRelatedVerseText.getD c.customRelatedVerseText

/-- The in-memory content cache `Record<string, DevotionalContent>`
(src/unnamed/part_001), embedded as an insertion-ordered association
list, matching JS object property order for non-index string keys. -/
def Cache := List (String × DevotionalContent)

instance : DecidableEq Cache := by
  unfold Cache
  exact inferInstance

instance : Repr Cache := by
  unfold Cache
  exact inferInstance

/-- Property lookup `cache[key]` (first, and only, binding wins). -/
def Cache.get (c : Cache) (key : String) : Option DevotionalContent :=
  (List.find? (fun e => e.1 = key) c).map (fun e => e.2)

/-- `{ ...prev, [key]: v }`: an existing key is updated in place, a new
key is appended, matching JS object property order. -/
def insertCache (c : Cache) (key : String) (v : DevotionalContent) : Cache :=
  match c with
  | [] => [(key, v)]
  | e :: rest =>
      if e.1 = key then (key, v) :: rest
      else e :: insertCache rest key v

/-- `Object.values(cache)` in property (insertion) order. -/
def cacheValues (c : Cache) : List DevotionalContent :=
  List.map (fun e : String × DevotionalContent => e.2) c

/-- `s.toLowerCase()` restricted to the character-wise lowering the
searched content uses. -/
def jsToLower (s : String) : String :=
  String.map Char.toLower s

/-- Drops leading whitespace characters from a character list. -/
def dropLeadingWs : List Char → List Char
  | [] => []
  | c :: cs => if c.isWhitespace then dropLeadingWs cs else c :: cs

/-- `s.trim()`: strips whitespace from both ends of the string. -/
def jsTrim (s : String) : String :=
  String.mk (List.reverse (dropLeadingWs (List.reverse (dropLeadingWs s.toList))))

/-- Boolean list-prefix test used to implement substring search. -/
def listPrefixEq : List Char → List Char → Bool
  | [], _ => true
  | _ :: _, [] => false
  | a :: as, b :: bs => a = b && listPrefixEq as bs

/-- Boolean substring test on character lists: does `needle` occur
contiguously in the list? `[].includes` behaviour on the empty needle is
`true`, as in JS. -/
def listOccurs : List Char → List Char → Bool
  | _, [] => true
  | [], _ :: _ => false
  | h :: t, n => listPrefixEq n (h :: t) || listOccurs t n

/-- `hay.includes(needle)` for strings. -/
def strIncludes (hay needle : String) : Bool :=
  listOccurs hay.toList needle.toList

/-- The per-item predicate of the searchResults filter
(src/unnamed/part_001): case-insensitive substring match over passage
reference, scripture text, reflection, both prayers and, when the field
is a non-empty (truthy) string, the related-verse reference and text.
`lq` is the already-lowercased query. -/
def matchesItem (item : DevotionalContent) (lq : String) : Bool :=
  strIncludes (jsToLower item.passageReference) lq ||
  strIncludes (jsToLower item.scriptureText) lq ||
  strIncludes (jsToLower item.reflection) lq ||
  strIncludes (jsToLower item.morningPrayer) lq ||
  strIncludes (jsToLower item.eveningPrayer) lq ||
  (decide (item.relatedVerseReference ≠ "") &&
    strIncludes (jsToLower item.relatedVerseReference) lq) ||
  (decide (item.relatedVerseText ≠ "") &&
    strIncludes (jsToLower item.relatedVerseText) lq)

/-- The searchResults computation (src/unnamed/part_001): an empty or
whitespace-only query yields `[]`; otherwise the cache's values are
filtered by `matchesItem` and sorted ascending by the comparator
`new Date(a.date).getTime() - new Date(b.date).getTime()`, with the
JS date-string parse abstracted as `getTime`. -/
def searchResults (getTime : String → Nat) (cache : Cache) (query : String) :
    List DevotionalContent :=
  if jsTrim query = "" then []
  else
    let lq := jsToLower query
    List.insertionSort (fun a b => getTime a.date ≤ getTime b.date)
      (List.filter (fun item => matchesItem item lq) (cacheValues cache))

/-- Worker for `jsSetDedup` carrying the set of already-emitted keys. -/
def jsSetDedupAux (seen : List String) : List String → List String
  | [] => []
  | x :: xs =>
      if x ∈ seen then jsSetDedupAux seen xs
      else x :: jsSetDedupAux (x :: seen) xs

/-- `Array.from(new Set(l))` (src/services/syncService.ts): removes
duplicates keeping the first occurrence of each element, preserving
insertion order. -/
def jsSetDedup (l : List String) : List String :=
  jsSetDedupAux [] l

/-- User preferences record (src/unnamed/part_000). -/
structure Preferences where
  theme : Theme
deriving DecidableEq, Repr

/-- User progress record (src/unnamed/part_000): completed dates are an
array of date-key strings. -/
structure Progress where
  completedDates : List String
deriving DecidableEq, Repr

/-- UserProfile record (src/unnamed/part_000). `lastSyncedAt` is the
epoch-milliseconds timestamp. -/
structure UserProfile where
  preferences : Preferences
  progress : Progress
  lastSyncedAt : Nat
deriving DecidableEq, Repr

/-- mergeProfiles (src/services/syncService.ts lines 61-79): completed
dates become the deduplicated concatenation local-then-cloud; the theme
is the cloud's exactly when the cloud's lastSyncedAt is strictly
greater, otherwise the local's; lastSyncedAt becomes `Date.now()`,
passed here as `now`. -/
def mergeProfiles (localProfile cloud : UserProfile) (now : Nat) : UserProfile where
  preferences :=
    { theme :=
        if cloud.lastSyncedAt > localProfile.lastSyncedAt then cloud.preferences.theme
        else localProfile.preferences.theme }
  progress :=
    { completedDates :=
        jsSetDedup (localProfile.progress.completedDates ++ cloud.progress.completedDates) }
  lastSyncedAt := now

/-- toggleComplete (src/unnamed/part_001 lines 112-122) acting on the
completedDates array for the current date key: if the key is present it
is filtered out (every occurrence removed), otherwise it is appended. -/
def toggleComplete (key : String) (completedDates : List String) : List String :=
  if key ∈ completedDates then List.filter (fun d => d ≠ key) completedDates
  else completedDates ++ [key]

/-- The online-event listener (src/unnamed/part_001 line 57):
`const handleOnline = () => setSyncStatus('synced')`. It replaces the
prior status unconditionally. -/
def handleOnline (_prior : SyncStatus) : SyncStatus :=
  SyncStatus.synced

/-- The offline-event listener (src/unnamed/part_001 line 58):
`const handleOffline = () => setSyncStatus('offline')`. -/
def handleOffline (_prior : SyncStatus) : SyncStatus :=
  SyncStatus.offline

/-- handleContentUpdate (src/unnamed/part_001 lines 153-165): with no
content loaded it returns early, changing nothing; otherwise the partial
fields are spread over the current content, which becomes both the new
displayed content and the cache entry under the current date key. The
result is the (displayed content, cache) pair after the call. -/
def handleContentUpdate (content : Option DevotionalContent) (p : PartialContent)
    (cache : Cache) (key : String) : Option DevotionalContent × Cache :=
  match content with
  | none => (none, cache)
  | some c =>
      let updated := mergeContent c p
      (some updated, insertCache cache key updated)

/-- The orchestration state of the App component relevant to date
selection (src/unnamed/part_001): the currently selected date key, the
displayed content, the loading state and the content cache. -/
structure AppState where
  currentKey : String
  content : Option DevotionalContent
  loadingState : LoadingState
  cache : Cache
deriving DecidableEq, Repr

/-- The synchronous prefix of loadContent (src/unnamed/part_001 lines
126-137), run up to the first await: on a cache hit the cached record
becomes the displayed content and the state goes to SUCCESS with no
fetch; on a miss the state goes to LOADING and a fetch for `key` is
issued (returned as `some key`). -/
def loadContentStart (st : AppState) (key : String) : AppState × Option String :=
  match st.cache.get key with
  | some c =>
      ({ st with content := some c, loadingState := LoadingState.SUCCESS }, none)
  | none =>
      ({ st with loadingState := LoadingState.LOADING }, some key)

/-- The resolution continuation of loadContent (src/unnamed/part_001
lines 138-141), applied when the fetch started for `key` resolves with
`data`: the cache gains `data` under the key captured at initiation, and
`data` becomes the displayed content with state SUCCESS — with no
comparison of `key` against the selection current at completion time. -/
def loadContentResolve (st : AppState) (key : String) (data : DevotionalContent) : AppState :=
  { st with
    cache := insertCache st.cache key data
    content := some data
    loadingState := LoadingState.SUCCESS }

/-- The rejection continuation of loadContent (src/unnamed/part_001
lines 142-144): the catch branch only sets the loading state to ERROR. -/
def loadContentReject (st : AppState) : AppState :=
  { st with loadingState := LoadingState.ERROR }

/-- handleDateSelect followed by the effect that reruns loadContent for
the new selection (src/unnamed/part_001): the current key changes and
loadContent's synchronous prefix runs for it. -/
def selectDate (st : AppState) (key : String) : AppState × Option String :=
  loadContentStart { st with currentKey := key } key

/-- The JSON payload of the content fetcher, carrying the nine required
string fields of the response schema (src/services/geminiService.ts). -/
structure GeminiPayload where
  passageReference : String
  scriptureText : String
  reflection : String
  morningPrayer : String
  eveningPrayer : String
  quote : String
  quoteAuthor : String
  relatedVerseReference : String
  relatedVerseText : String
deriving DecidableEq, Repr

/-- The payload handling of fetchDevotionalForDate
(src/services/geminiService.ts lines 96-110): a missing or empty
response text throws (Empty response from AI); a text the JSON parser
rejects throws; otherwise the full record is assembled as
`{ date: dateStr, ...data }`. The transport and parser are abstracted as
the `responseText` and `parseJson` arguments. -/
def fetchDevotionalForDate (dateStr : String) (responseText : Option String)
    (parseJson : String → Option GeminiPayload) : Except Unit DevotionalContent :=
  match responseText with
  | none => Except.error ()
  | some t =>
      if t = "" then Except.error ()
      else
        match parseJson t with
        | none => Except.error ()
        | some d =>
            Except.ok
              { date := dateStr
                passageReference := d.passageReference
                scriptureText := d.scriptureText
                reflection := d.reflection
                morningPrayer := d.morningPrayer
                eveningPrayer := d.eveningPrayer
                quote := d.quote
                quoteAuthor := d.quoteAuthor
                relatedVerseReference := d.relatedVerseReference
                relatedVerseText := d.relatedVerseText
                customPassageText := none
                customRelatedVerseText := none }

/-- A concrete devotional record for January 1, 2026. -/
def sampleContentA : DevotionalContent where
  date := "Wednesday, January 1, 2026"
  passageReference := "Genesis 1-3"
  scriptureText := "In the beginning God created the heaven and the earth."
  reflection := "Creation opens the story of scripture."
  morningPrayer := "Order this day according to Your word."
  eveningPrayer := "Grant rest at the close of this day."
  quote := "All things were made by him."
  quoteAuthor := "John"
  relatedVerseReference := "John 1:1"
  relatedVerseText := "In the beginning was the Word."
  customPassageText := none
  customRelatedVerseText := none

/-- A concrete devotional record for January 2, 2026. -/
def sampleContentB : DevotionalContent where
  date := "Thursday, January 2, 2026"
  passageReference := "Genesis 4-7"
  scriptureText := "And the LORD had respect unto Abel and to his offering."
  reflection := "The flood narrative begins."
  morningPrayer := "Keep my heart from envy today."
  eveningPrayer := "Thank You for preserving grace."
  quote := "Obedience builds the ark before the rain."
  quoteAuthor := "Unknown"
  relatedVerseReference := "Hebrews 11:7"
  relatedVerseText := "By faith Noah prepared an ark."
  customPassageText := none
  customRelatedVerseText := none

/-- A concrete two-entry cache in insertion order. -/
def sampleCache : Cache :=
  [("Wed Jan 01 2026", sampleContentA), ("Thu Jan 02 2026", sampleContentB)]

/-- A concrete orchestration state whose cache holds the two samples. -/
def sampleCacheState : AppState where
  currentKey := "Thu Jan 02 2026"
  content := some sampleContentB
  loadingState := LoadingState.SUCCESS
  cache := sampleCache

/-- The orchestration state at startup: empty cache, nothing displayed. -/
def emptyState : AppState where
  currentKey := "Wed Jan 01 2026"
  content := none
  loadingState := LoadingState.IDLE
  cache := []

/-- A concrete partial update naming only the reflection field. -/
def samplePartial : PartialContent :=
  { emptyPartial with reflection := some "An edited reflection." }

/-- A concrete fetcher payload. -/
def samplePayload : GeminiPayload where
  passageReference := "Genesis 1-3"
  scriptureText := "In the beginning God created the heaven and the earth."
  reflection := "Creation opens the story of scripture."
  morningPrayer := "Order this day according to Your word."
  eveningPrayer := "Grant rest at the close of this day."
  quote := "All things were made by him."
  quoteAuthor := "John"
  relatedVerseReference := "John 1:1"
  relatedVerseText := "In the beginning was the Word."

/-- A concrete local profile. -/
def sampleLocal : UserProfile where
  preferences := { theme := Theme.dark }
  progress := { completedDates := ["Wed Jan 01 2026"] }
  lastSyncedAt := 100

/-- A concrete cloud profile with the same lastSyncedAt as the local
one and an overlapping completed-dates array. -/
def sampleCloud : UserProfile where
  preferences := { theme := Theme.sepia }
  progress := { completedDates := ["Thu Jan 02 2026", "Wed Jan 01 2026"] }
  lastSyncedAt := 100

/-! ### Helper lemmas -/

/-- Everything `jsSetDedupAux` emits comes from its input list. -/
theorem mem_of_mem_jsSetDedupAux (a : String) (l : List String) :
    ∀ seen : List String, a ∈ jsSetDedupAux seen l → a ∈ l := by
  induction l with
  | nil =>
      intro seen h
      simp [jsSetDedupAux] at h
  | cons x xs ih =>
      intro seen h
      unfold jsSetDedupAux at h
      by_cases hx : x ∈ seen
      · rw [if_pos hx] at h
        exact List.mem_cons_of_mem _ (ih seen h)
      · rw [if_neg hx] at h
        rcases List.mem_cons.mp h with rfl | h
        · exact List.mem_cons_self _ _
        · exact List.mem_cons_of_mem _ (ih _ h)

/-- An input element not yet seen is emitted by `jsSetDedupAux`. -/
theorem mem_jsSetDedupAux_of_mem (a : String) (l : List String) :
    ∀ seen : List String, a ∈ l → a ∉ seen → a ∈ jsSetDedupAux seen l := by
  induction l with
  | nil =>
      intro seen h _
      simp at h
  | cons x xs ih =>
      intro seen h hns
      unfold jsSetDedupAux
      by_cases hx : x ∈ seen
      · rw [if_pos hx]
        rcases List.mem_cons.mp h with rfl | h
        · exact absurd hx hns
        · exact ih seen h hns
      · rw [if_neg hx]
        by_cases hax : a = x
        · subst hax
          exact List.mem_cons_self _ _
        · rcases List.mem_cons.mp h with rfl | h
          · exact absurd rfl hax
          · refine List.mem_cons_of_mem _ (ih _ h ?_)
            intro hmem
            rcases List.mem_cons.mp hmem with rfl | hmem
            · exact hax rfl
            · exact hns hmem

/-- An already-seen element is never emitted again. -/
theorem not_mem_jsSetDedupAux (a : String) (l : List String) :
    ∀ seen : List String, a ∈ seen → a ∉ jsSetDedupAux seen l := by
  induction l with
  | nil =>
      intro seen _ h
      simp [jsSetDedupAux] at h
  | cons x xs ih =>
      intro seen hseen h
      unfold jsSetDedupAux at h
      by_cases hx : x ∈ seen
      · rw [if_pos hx] at h
        exact ih seen hseen h
      · rw [if_neg hx] at h
        rcases List.mem_cons.mp h with rfl | h
        · exact hx hseen
        · exact ih _ (List.mem_cons_of_mem _ hseen) h

/-- `jsSetDedupAux` always emits a duplicate-free list. -/
theorem nodup_jsSetDedupAux (l : List String) :
    ∀ seen : List String, (jsSetDedupAux seen l).Nodup := by
  induction l with
  | nil =>
      intro seen
      simp [jsSetDedupAux]
  | cons x xs ih =>
      intro seen
      unfold jsSetDedupAux
      by_cases hx : x ∈ seen
      · rw [if_pos hx]
        exact ih seen
      · rw [if_neg hx]
        refine List.nodup_cons.mpr ⟨?_, ih _⟩
        exact not_mem_jsSetDedupAux x xs _ (List.mem_cons_self _ _)

/-- Membership in `jsSetDedup` agrees with membership in the input. -/
theorem mem_jsSetDedup (a : String) (l : List String) :
    a ∈ jsSetDedup l ↔ a ∈ l := by
  constructor
  · exact mem_of_mem_jsSetDedupAux a l []
  · intro h
    exact mem_jsSetDedupAux_of_mem a l [] h (List.not_mem_nil a)

/-- `jsSetDedup` is duplicate-free. -/
theorem nodup_jsSetDedup (l : List String) : (jsSetDedup l).Nodup :=
  nodup_jsSetDedupAux l []

/-- `jsSetDedup` keeps the underlying finite set of elements. -/
theorem toFinset_jsSetDedup (l : List String) :
    (jsSetDedup l).toFinset = l.toFinset := by
  ext a
  simp [List.mem_toFinset, mem_jsSetDedup]

/-- Writing one cache key leaves every other key's lookup unchanged. -/
theorem get_insertCache_ne (c : Cache) (k otherKey : String) (v : DevotionalContent)
    (h : otherKey ≠ k) :
    Cache.get (insertCache c k v) otherKey = Cache.get c otherKey := by
  induction c with
  | nil =>
      simp [insertCache, Cache.get, List.find?, Ne.symm h]
  | cons e rest ih =>
      unfold insertCache
      by_cases he : e.1 = k
      · rw [if_pos he]
        simp [Cache.get, List.find?, Ne.symm h, he]
      · rw [if_neg he]
        by_cases he' : e.1 = otherKey
        · simp [Cache.get, List.find?, he']
        · simp only [Cache.get, List.find?] at ih ⊢
          rw [show (decide (e.1 = otherKey)) = false by simpa using he']
          exact ih

/-! ### Claim theorems -/

/-- Claim C1 (evidence of the code's divergence): starting from the
empty-cache startup state, selecting the January 1 key starts a fetch
for it; selecting the January 2 key while that fetch is in flight puts
the app in LOADING for the new selection with nothing displayed; when
the first (now stale) fetch then resolves, `loadContentResolve` applies
it unconditionally, so the displayed content becomes the January 1
record with state SUCCESS even though January 2 is the active
selection — the stale result is applied as the active display, not
discarded. -/
theorem staleFetchOverwritesDisplay :
    (selectDate emptyState "Wed Jan 01 2026").2 = some "Wed Jan 01 2026" ∧
    ((selectDate (selectDate emptyState "Wed Jan 01 2026").1 "Thu Jan 02 2026").1.currentKey
        = "Thu Jan 02 2026" ∧
      (selectDate (selectDate emptyState "Wed Jan 01 2026").1 "Thu Jan 02 2026").1.loadingState
        = LoadingState.LOADING ∧
      (selectDate (selectDate emptyState "Wed Jan 01 2026").1 "Thu Jan 02 2026").1.content
        = none) ∧
    (loadContentResolve
        (selectDate (selectDate emptyState "Wed Jan 01 2026").1 "Thu Jan 02 2026").1
        "Wed Jan 01 2026" sampleContentA).currentKey = "Thu Jan 02 2026" ∧
    (loadContentResolve
        (selectDate (selectDate emptyState "Wed Jan 01 2026").1 "Thu Jan 02 2026").1
        "Wed Jan 01 2026" sampleContentA).content = some sampleContentA ∧
    (loadContentResolve
        (selectDate (selectDate emptyState "Wed Jan 01 2026").1 "Thu Jan 02 2026").1
        "Wed Jan 01 2026" sampleContentA).loadingState = LoadingState.SUCCESS := by
  refine ⟨rfl, ⟨rfl, rfl, rfl⟩, rfl, rfl, rfl⟩

/-- Claim C2: selecting a date whose key is in the cache issues no
fetch and short-circuits directly to SUCCESS with the cached record as
the displayed content, leaving the cache unchanged and never entering
LOADING. -/
theorem cacheHitShortCircuits (st : AppState) (key : String) (c : DevotionalContent)
    (h : st.cache.get key = some c) :
    selectDate st key =
      ({ currentKey := key, content := some c,
         loadingState := LoadingState.SUCCESS, cache := st.cache }, none) := by
  unfold selectDate loadContentStart
  have hc : ({ st with currentKey := key } : AppState).cache = st.cache := rfl
  rw [hc, h]

/-- Witness for C2 at a concrete cached key. -/
theorem cacheHitShortCircuits_witness :
    sampleCacheState.cache.get "Wed Jan 01 2026" = some sampleContentA ∧
    selectDate sampleCacheState "Wed Jan 01 2026" =
      ({ currentKey := "Wed Jan 01 2026", content := some sampleContentA,
         loadingState := LoadingState.SUCCESS, cache := sampleCacheState.cache }, none) :=
  ⟨rfl, cacheHitShortCircuits sampleCacheState "Wed Jan 01 2026" sampleContentA rfl⟩

/-- Claim C3: an update leaves every cache entry under a different key
unchanged, and every field the partial does not name keeps its prior
value in the merged record; in particular an update naming a single
field changes only that field. -/
theorem updateFramesRecord (c : DevotionalContent) (p : PartialContent)
    (cache : Cache) (key otherKey : String) (h : otherKey ≠ key) :
    Cache.get (handleContentUpdate (some c) p cache key).2 otherKey =
      Cache.get cache otherKey ∧
    (p.date = none → (mergeContent c p).date = c.date) ∧
    (p.passageReference = none →
      (mergeContent c p).passageReference = c.passageReference) ∧
    (p.scriptureText = none → (mergeContent c p).scriptureText = c.scriptureText) ∧
    (p.reflection = none → (mergeContent c p).reflection = c.reflection) ∧
    (p.morningPrayer = none → (mergeContent c p).morningPrayer = c.morningPrayer) ∧
    (p.eveningPrayer = none → (mergeContent c p).eveningPrayer = c.eveningPrayer) ∧
    (p.quote = none → (mergeContent c p).quote = c.quote) ∧
    (p.quoteAuthor = none → (mergeContent c p).quoteAuthor = c.quoteAuthor) ∧
    (p.relatedVerseReference = none →
      (mergeContent c p).relatedVerseReference = c.relatedVerseReference) ∧
    (p.relatedVerseText = none →
      (mergeContent c p).relatedVerseText = c.relatedVerseText) ∧
    (p.customPassageText = none →
      (mergeContent c p).customPassageText = c.customPassageText) ∧
    (p.customRelatedVerseText = none →
      (mergeContent c p).customRelatedVerseText = c.customRelatedVerseText) := by
  refine ⟨?_, ?_, ?_, ?_, ?_, ?_, ?_, ?_, ?_, ?_, ?_, ?_, ?_⟩
  · exact get_insertCache_ne cache key otherKey _ h
  all_goals
    intro hf
    simp [mergeContent, hf]

/-- Witness for C3: a reflection-only update at January 1 leaves the
January 2 cache entry and the unnamed passageReference field unchanged. -/
theorem updateFramesRecord_witness :
    Cache.get
        (handleContentUpdate (some sampleContentA) samplePartial sampleCache
          "Wed Jan 01 2026").2 "Thu Jan 02 2026" =
      Cache.get sampleCache "Thu Jan 02 2026" ∧
    (mergeContent sampleContentA samplePartial).passageReference =
      sampleContentA.passageReference :=
  ⟨(updateFramesRecord sampleContentA samplePartial sampleCache
      "Wed Jan 01 2026" "Thu Jan 02 2026" (by decide)).1,
   (updateFramesRecord sampleContentA samplePartial sampleCache
      "Wed Jan 01 2026" "Thu Jan 02 2026" (by decide)).2.2.1 rfl⟩

/-- Claim C4 counterexample: applying an update carrying a named field
while no record is loaded returns the displayed content and cache
exactly unchanged — the call is silently ignored, it does not fail. -/
theorem updateAbsentSilentNoop_cex :
    handleContentUpdate none samplePartial sampleCache "Wed Jan 01 2026" =
      (none, sampleCache) := rfl

/-- Claim C4 amended: applying update while no record is currently
loaded is a silent no-op: for every partial, cache and key the result
is the unchanged (content, cache) pair and no failure is signalled. -/
theorem updateAbsentSilentNoop (p : PartialContent) (cache : Cache) (key : String) :
    handleContentUpdate none p cache key = (none, cache) := rfl

/-- Claim C5: the merged profile's completed dates contain every local
and every cloud completed date, and the cardinality of the merged
completed-dates set is at least that of each input's completed-dates
set. -/
theorem mergeCompletedSuperset (localProfile cloud : UserProfile) (now : Nat) :
    (∀ d ∈ localProfile.progress.completedDates,
        d ∈ (mergeProfiles localProfile cloud now).progress.completedDates) ∧
    (∀ d ∈ cloud.progress.completedDates,
        d ∈ (mergeProfiles localProfile cloud now).progress.completedDates) ∧
    localProfile.progress.completedDates.toFinset.card ≤
      (mergeProfiles localProfile cloud now).progress.completedDates.toFinset.card ∧
    cloud.progress.completedDates.toFinset.card ≤
      (mergeProfiles localProfile cloud now).progress.completedDates.toFinset.card := by
  have hmerge : (mergeProfiles localProfile cloud now).progress.completedDates =
      jsSetDedup (localProfile.progress.completedDates ++ cloud.progress.completedDates) := rfl
  have hfin : (mergeProfiles localProfile cloud now).progress.completedDates.toFinset =
      localProfile.progress.completedDates.toFinset ∪
        cloud.progress.completedDates.toFinset := by
    rw [hmerge, toFinset_jsSetDedup, List.toFinset_append]
  refine ⟨?_, ?_, ?_, ?_⟩
  · intro d hd
    rw [hmerge, mem_jsSetDedup]
    exact List.mem_append_left _ hd
  · intro d hd
    rw [hmerge, mem_jsSetDedup]
    exact List.mem_append_right _ hd
  · rw [hfin]
    exact Finset.card_le_card Finset.subset_union_left
  · rw [hfin]
    exact Finset.card_le_card Finset.subset_union_right

/-- Witness for C5 at concrete overlapping profiles. -/
theorem mergeCompletedSuperset_witness :
    "Wed Jan 01 2026" ∈ (mergeProfiles sampleLocal sampleCloud 200).progress.completedDates ∧
    "Thu Jan 02 2026" ∈ (mergeProfiles sampleLocal sampleCloud 200).progress.completedDates :=
  ⟨(mergeCompletedSuperset sampleLocal sampleCloud 200).1 "Wed Jan 01 2026" (by decide),
   (mergeCompletedSuperset sampleLocal sampleCloud 200).2.1 "Thu Jan 02 2026" (by decide)⟩

/-- Claim C6: the merged theme is the cloud's exactly when the cloud's
lastSyncedAt is strictly greater than the local's; in particular equal
timestamps keep the local theme. -/
theorem mergeThemeNewerWins (localProfile cloud : UserProfile) (now : Nat) :
    (mergeProfiles localProfile cloud now).preferences.theme =
      (if localProfile.lastSyncedAt < cloud.lastSyncedAt then cloud.preferences.theme
       else localProfile.preferences.theme) ∧
    (localProfile.lastSyncedAt = cloud.lastSyncedAt →
      (mergeProfiles localProfile cloud now).preferences.theme =
        localProfile.preferences.theme) := by
  constructor
  · rfl
  · intro h
    unfold mergeProfiles
    simp [gt_iff_lt, ← h]

/-- Witness for C6: equal timestamps keep the local (dark) theme. -/
theorem mergeThemeNewerWins_witness :
    sampleLocal.lastSyncedAt = sampleCloud.lastSyncedAt ∧
    (mergeProfiles sampleLocal sampleCloud 200).preferences.theme = Theme.dark :=
  ⟨rfl, (mergeThemeNewerWins sampleLocal sampleCloud 200).2 rfl⟩

/-- Claim C7: for every cache contents and every non-empty query, the
search results are sorted ascending by the date of the matched entries
(for every interpretation `getTime` of the date strings as times). -/
theorem searchResultsSorted (getTime : String → Nat) (cache : Cache) (query : String)
    (h : jsTrim query ≠ "") :
    List.Sorted (fun a b => getTime a.date ≤ getTime b.date)
      (searchResults getTime cache query) := by
  unfold searchResults
  rw [if_neg h]
  haveI : IsTotal DevotionalContent (fun a b => getTime a.date ≤ getTime b.date) :=
    ⟨fun a b => Nat.le_total _ _⟩
  haveI : IsTrans DevotionalContent (fun a b => getTime a.date ≤ getTime b.date) :=
    ⟨fun _ _ _ => Nat.le_trans⟩
  exact List.sorted_insertionSort _ _

/-- Witness for C7 on the concrete cache with a matching query. -/
theorem searchResultsSorted_witness :
    jsTrim "genesis" ≠ "" ∧
    List.Sorted (fun a b => String.length a.date ≤ String.length b.date)
      (searchResults String.length sampleCache "genesis") :=
  ⟨by decide, searchResultsSorted String.length sampleCache "genesis" (by decide)⟩

/-- Claim C8 counterexample: a connectivity-restored event received
while the status is error yields the synced status — the prior error IS
retroactively resolved to synced by the connectivity event alone. -/
theorem onlineResolvesError_cex :
    handleOnline SyncStatus.error = SyncStatus.synced ∧
    SyncStatus.synced ≠ SyncStatus.error :=
  ⟨rfl, by decide⟩

/-- Claim C8 amended: a connectivity-restored event sets the status to
synced unconditionally, from every prior status, error included; no
pending-mutation condition is checked. -/
theorem onlineAlwaysSynced (prior : SyncStatus) :
    handleOnline prior = SyncStatus.synced := rfl

/-- Claim C9: on a cache miss the orchestration enters LOADING and
issues the fetch; if that fetch rejects, the state becomes ERROR while
the cache and the displayed content are exactly as before; and the
fetcher itself rejects on a missing, empty or unparseable payload,
never producing a partial record. -/
theorem fetchFailureNoCacheWrite (st : AppState) (key dateStr : String)
    (parseJson : String → Option GeminiPayload) (hmiss : st.cache.get key = none) :
    (loadContentStart st key).1.loadingState = LoadingState.LOADING ∧
    (loadContentStart st key).2 = some key ∧
    (loadContentReject (loadContentStart st key).1).loadingState = LoadingState.ERROR ∧
    (loadContentReject (loadContentStart st key).1).cache = st.cache ∧
    (loadContentReject (loadContentStart st key).1).content = st.content ∧
    fetchDevotionalForDate dateStr none parseJson = Except.error () ∧
    fetchDevotionalForDate dateStr (some "") parseJson = Except.error () ∧
    (∀ t, t ≠ "" → parseJson t = none →
      fetchDevotionalForDate dateStr (some t) parseJson = Except.error ()) := by
  unfold loadContentStart
  rw [hmiss]
  refine ⟨rfl, rfl, rfl, rfl, rfl, rfl, rfl, ?_⟩
  intro t ht hp
  simp only [fetchDevotionalForDate]
  rw [if_neg ht, hp]

/-- Witness for C9 at the empty startup state. -/
theorem fetchFailureNoCacheWrite_witness :
    emptyState.cache.get "Wed Jan 01 2026" = none ∧
    (loadContentReject (loadContentStart emptyState "Wed Jan 01 2026").1).cache =
      emptyState.cache ∧
    fetchDevotionalForDate "Wednesday, January 1, 2026" (some "")
        (fun _ => some samplePayload) = Except.error () :=
  ⟨rfl,
   (fetchFailureNoCacheWrite emptyState "Wed Jan 01 2026" "Wednesday, January 1, 2026"
      (fun _ => some samplePayload) rfl).2.2.2.1,
   (fetchFailureNoCacheWrite emptyState "Wed Jan 01 2026" "Wednesday, January 1, 2026"
      (fun _ => some samplePayload) rfl).2.2.2.2.2.2.1⟩

/-- Claim C10: toggling a date key preserves duplicate-freedom of the
completed-dates list (appending the key only when absent, removing
every occurrence otherwise), and the merged profile's completed dates
are duplicate-free whatever the inputs. -/
theorem completedDatesNodup (key : String) (l : List String) (hl : l.Nodup)
    (localProfile cloud : UserProfile) (now : Nat) :
    (toggleComplete key l).Nodup ∧
    (key ∉ l → toggleComplete key l = l ++ [key]) ∧
    (key ∈ l → key ∉ toggleComplete key l) ∧
    ((mergeProfiles localProfile cloud now).progress.completedDates).Nodup := by
  refine ⟨?_, ?_, ?_, nodup_jsSetDedup _⟩
  · unfold toggleComplete
    by_cases hk : key ∈ l
    · rw [if_pos hk]
      exact hl.filter _
    · rw [if_neg hk]
      rw [List.nodup_append]
      refine ⟨hl, List.nodup_singleton _, ?_⟩
      intro a ha hb
      rcases List.mem_singleton.mp hb with rfl
      exact hk ha
  · intro hk
    unfold toggleComplete
    rw [if_neg hk]
  · intro hk
    unfold toggleComplete
    rw [if_pos hk]
    intro hmem
    have := (List.mem_filter.mp hmem).2
    simp at this

/-- Witness for C10 with a concrete duplicate-free list and profiles. -/
theorem completedDatesNodup_witness :
    (toggleComplete "Wed Jan 01 2026" ["Thu Jan 02 2026"]).Nodup ∧
    toggleComplete "Wed Jan 01 2026" ["Thu Jan 02 2026"] =
      ["Thu Jan 02 2026", "Wed Jan 01 2026"] ∧
    ((mergeProfiles sampleLocal sampleCloud 300).progress.completedDates).Nodup :=
  ⟨(completedDatesNodup "Wed Jan 01 2026" ["Thu Jan 02 2026"] (by decide)
      sampleLocal sampleCloud 300).1,
   (completedDatesNodup "Wed Jan 01 2026" ["Thu Jan 02 2026"] (by decide)
      sampleLocal sampleCloud 300).2.1 (by decide),
   (completedDatesNodup "Wed Jan 01 2026" ["Thu Jan 02 2026"] (by decide)
      sampleLocal sampleCloud 300).2.2.2⟩

end Veritas
